import Mathlib

/-!
Verification development for the Dockerize integrity-supervision tool
(`dockerizev8.py`).  The Python functions relevant to the supervision core are
shallowly embedded as Lean functions; external process invocations
(`subprocess`) are modelled by explicit environment records giving each call's
outcome, and theorems settle the specified properties of the embedding.
-/

namespace Dockerize

/-! ### SHA-256 (model of `hashlib.sha256`)

`compute_container_hash` streams `docker export` output through
`hashlib.sha256`.  We embed the full SHA-256 algorithm over natural numbers,
with 32-bit words represented as `Nat` reduced mod `2 ^ 32`. -/

abbrev Byte := Nat

def w32 : Nat := 2 ^ 32

def add32 (a b : Nat) : Nat := (a + b) % w32

def rotr (k x : Nat) : Nat := ((x >>> k) ||| (x <<< (32 - k))) % w32

def bnot32 (x : Nat) : Nat := x ^^^ (w32 - 1)

def bigSigma0 (x : Nat) : Nat := (rotr 2 x) ^^^ (rotr 13 x) ^^^ (rotr 22 x)

def bigSigma1 (x : Nat) : Nat := (rotr 6 x) ^^^ (rotr 11 x) ^^^ (rotr 25 x)

def smallSigma0 (x : Nat) : Nat := (rotr 7 x) ^^^ (rotr 18 x) ^^^ (x >>> 3)

def smallSigma1 (x : Nat) : Nat := (rotr 17 x) ^^^ (rotr 19 x) ^^^ (x >>> 10)

def chFn (x y z : Nat) : Nat := (x &&& y) ^^^ (bnot32 x &&& z)

def majFn (x y z : Nat) : Nat := (x &&& y) ^^^ (x &&& z) ^^^ (y &&& z)

/-- The 64 SHA-256 round constants. -/
def roundK : List Nat :=
  [1116352408, 1899447441, 3049323471, 3921009573, 961987163, 1508970993,
   2453635748, 2870763221, 3624381080, 310598401, 607225278, 1426881987,
   1925078388, 2162078206, 2614888103, 3248222580, 3835390401, 4022224774,
   264347078, 604807628, 770255983, 1249150122, 1555081692, 1996064986,
   2554220882, 2821834349, 2952996808, 3210313671, 3336571891, 3584528711,
   113926993, 338241895, 666307205, 773529912, 1294757372, 1396182291,
   1695183700, 1986661051, 2177026350, 2456956037, 2730485921, 2820302411,
   3259730800, 3345764771, 3516065817, 3600352804, 4094571909, 275423344,
   430227734, 506948616, 659060556, 883997877, 958139571, 1322822218,
   1537002063, 1747873779, 1955562222, 2024104815, 2227730452, 2361852424,
   2428436474, 2756734187, 3204031479, 3329325298]

/-- The eight 32-bit words of the SHA-256 working state. -/
structure Words8 where
  a : Nat
  b : Nat
  c : Nat
  d : Nat
  e : Nat
  f : Nat
  g : Nat
  h : Nat
deriving DecidableEq, Repr

def sha256H0 : Words8 :=
  ⟨1779033703, 3144134277, 1013904242, 2773480762, 1359893119, 2600822924, 528734635, 1541459225⟩

def Words8.toList (w : Words8) : List Nat := [w.a, w.b, w.c, w.d, w.e, w.f, w.g, w.h]

/-- Big-endian 32-bit words from a block of bytes. -/
def bytesToWords : List Byte → List Nat
  | a :: b :: c :: d :: rest => (((a * 256 + b) * 256 + c) * 256 + d) % w32 :: bytesToWords rest
  | _ => []

/-- Extend the 16-word message schedule by `n` further words. -/
def extendSchedule (ws : List Nat) : Nat → List Nat
  | 0 => ws
  | n + 1 =>
      let i := ws.length
      let wNew := add32 (add32 (smallSigma1 (ws.getD (i - 2) 0)) (ws.getD (i - 7) 0))
                        (add32 (smallSigma0 (ws.getD (i - 15) 0)) (ws.getD (i - 16) 0))
      extendSchedule (ws ++ [wNew]) n

/-- One SHA-256 compression round; `kw` is the round constant plus the schedule word. -/
def shaRound (s : Words8) (kw : Nat) : Words8 :=
  let t1 := add32 s.h (add32 (bigSigma1 s.e) (add32 (chFn s.e s.f s.g) kw))
  let t2 := add32 (bigSigma0 s.a) (majFn s.a s.b s.c)
  ⟨add32 t1 t2, s.a, s.b, s.c, add32 s.d t1, s.e, s.f, s.g⟩

/-- Compress one 64-byte block into the running hash state. -/
def compress (hs : Words8) (block : List Byte) : Words8 :=
  let ws := extendSchedule (bytesToWords block) 48
  let kws := List.zipWith add32 roundK ws
  let fin := kws.foldl shaRound hs
  ⟨add32 hs.a fin.a, add32 hs.b fin.b, add32 hs.c fin.c, add32 hs.d fin.d,
   add32 hs.e fin.e, add32 hs.f fin.f, add32 hs.g fin.g, add32 hs.h fin.h⟩

/-- Incremental hashing state, mirroring a `hashlib.sha256` object: current
chaining value, the not-yet-compressed buffer (< 64 bytes), and the total
number of bytes absorbed so far. -/
structure HashState where
  hs : Words8
  buffer : List Byte
  total : Nat
deriving DecidableEq, Repr

def sha256Mk : HashState := ⟨sha256H0, [], 0⟩

/-- Absorb one byte, compressing whenever a full 64-byte block accumulates. -/
def absorbByte (st : HashState) (b : Byte) : HashState :=
  let buf := st.buffer ++ [b]
  if buf.length = 64 then ⟨compress st.hs buf, [], st.total + 1⟩
  else ⟨st.hs, buf, st.total + 1⟩

/-- `hasher.update(chunk)`. -/
def shaUpdate (st : HashState) (chunk : List Byte) : HashState := chunk.foldl absorbByte st

/-- A 64-bit big-endian length field, as 8 bytes. -/
def be64 (n : Nat) : List Byte := (List.range 8).map (fun i => (n >>> (56 - 8 * i)) % 256)

/-- SHA-256 padding: `0x80`, zeros to 56 mod 64, then the bit length. -/
def padSuffix (total bufLen : Nat) : List Byte :=
  0x80 :: (List.replicate ((119 - bufLen) % 64) 0 ++ be64 ((8 * total) % 2 ^ 64))

def shaFinal (st : HashState) : Words8 :=
  (shaUpdate st (padSuffix st.total st.buffer.length)).hs

/-- A 32-bit word as 8 lowercase hex characters. -/
def wordToHex (n : Nat) : List Char := (List.range 8).map (fun i => Nat.digitChar ((n >>> (28 - 4 * i)) % 16))

/-- `hasher.hexdigest()`. -/
def hexdigest (st : HashState) : String := String.mk ((shaFinal st).toList.map wordToHex).flatten

/-- The SHA-256 hex digest of a whole byte string at once. -/
def sha256Hex (msg : List Byte) : String := hexdigest (shaUpdate sha256Mk msg)

/-! ### `compute_container_hash` (the Fingerprint Engine)

The source spawns `docker export <name>`, reads its stdout in 4096-byte
chunks, feeds each chunk to the hasher, closes the pipe and calls
`proc.wait()` — whose return value it never consults — and returns the hex
digest.  Only a raised exception (e.g. the spawn itself failing) is caught
and turned into `None`. -/

/-- Outcome of spawning `docker export` and reading its stdout to EOF:
either an exception was raised while spawning/reading, or the process ran,
its stdout produced `bytes`, and `wait()` returned `exitCode`. -/
inductive ExportResult where
  | spawnError
  | stream (bytes : List Byte) (exitCode : Nat)
deriving DecidableEq, Repr

/-- Split a stream into the successive 4096-byte chunks that
`proc.stdout.read(4096)` returns (the last one may be shorter). -/
def readChunks : List Byte → List (List Byte)
  | [] => []
  | b :: rest => ((b :: rest).take 4096) :: readChunks ((b :: rest).drop 4096)
termination_by l => l.length
decreasing_by simp [List.length_drop]; omega

/-- `compute_container_hash(container_name)`, as a function of the export
call's outcome.  The exit status returned by `proc.wait()` is ignored, as in
the source; `None` arises only from a raised exception. -/
def compute_container_hash : ExportResult → Option String
  | .spawnError => none
  | .stream bytes _exitCode =>
      some (hexdigest ((readChunks bytes).foldl shaUpdate sha256Mk))

/-! ### Python string helpers used by the embedded functions -/

/-- `a.startswith(b)` over char lists. -/
def chPre : List Char → List Char → Bool
  | [], _ => true
  | _ :: _, [] => false
  | a :: as_, b :: bs => a == b && chPre as_ bs

/-- Python's substring test `needle in hay`, over char lists. -/
def chIn (needle : List Char) : List Char → Bool
  | [] => needle.isEmpty
  | b :: bs => chPre needle (b :: bs) || chIn needle bs

/-- Python's `needle in hay` on strings. -/
def pyIn (needle hay : String) : Bool := chIn needle.data hay.data

/-- Python's `s.startswith(p)` on strings. -/
def pyStarts (s p : String) : Bool := chPre p.data s.data

/-- Python's `str.lower()` (ASCII). -/
def pyLower (s : String) : String := String.mk (s.data.map Char.toLower)

/-- Python's `str.strip()`: drop leading and trailing whitespace. -/
def pyStrip (s : String) : String :=
  String.mk (((s.data.dropWhile Char.isWhitespace).reverse.dropWhile Char.isWhitespace).reverse)

/-- Python's `str.strip('"')`: drop leading and trailing double quotes. -/
def stripQuotes (s : String) : String :=
  String.mk (((s.data.dropWhile (· = '"')).reverse.dropWhile (· = '"')).reverse)

/-- Python's `s.split("=", 1)`: the parts before and after the first `=`. -/
def splitFirstEq (s : String) : String × String :=
  (String.mk (s.data.takeWhile (· ≠ '=')), String.mk ((s.data.dropWhile (· ≠ '=')).tail))

/-- `version.split(".")[0] if version else ""`: the text before the first dot. -/
def majorVersion (version : String) : String := String.mk (version.data.takeWhile (· ≠ '.'))

/-- `os.path.basename` (POSIX): the part after the last `/`. -/
def basename (p : String) : String := String.mk ((p.data.reverse.takeWhile (· ≠ '/')).reverse)

/-- The first component of `os.path.splitext`: strip the extension beginning
at the last dot, except that leading dots of the name never start one. -/
def splitextBase (s : String) : String :=
  let lead := s.data.takeWhile (· = '.')
  let rest := s.data.dropWhile (· = '.')
  if rest.any (· = '.') then
    String.mk (lead ++ ((rest.reverse.dropWhile (· ≠ '.')).drop 1).reverse)
  else s

/-! ### `detect_os` -/

/-- Host facts consumed by `detect_os`: `platform.system()`, the lines of
`/etc/os-release` (`none` if opening it raises), and `platform.release()`. -/
structure OsEnv where
  system : String
  osRelease : Option (List String)
  release : String
deriving Repr

/-- The `(key, value)` pairs `detect_os` stores in `os_info`, in line order:
for each line containing `=`, the line is stripped, split at the first `=`,
the key lowercased, the value unquoted and lowercased. -/
def osReleasePairs (lines : List String) : List (String × String) :=
  lines.filterMap (fun line =>
    if pyIn "=" line then
      some (pyLower (splitFirstEq (pyStrip line)).1, pyLower (stripQuotes (splitFirstEq (pyStrip line)).2))
    else none)

/-- `os_info.get(key, dflt)` — Python dict semantics: the last binding wins. -/
def dictGet (pairs : List (String × String)) (key dflt : String) : String :=
  (List.lookup key pairs.reverse).getD dflt

/-- `detect_os()`: best-effort host identity as a `(family, version)` pair. -/
def detect_os (env : OsEnv) : String × String :=
  let sysname := pyLower env.system
  if pyStarts sysname "linux" then
    match env.osRelease with
    | none => ("linux", "")
    | some lines =>
        let pairs := osReleasePairs lines
        (dictGet pairs "name" "linux", dictGet pairs "version_id" "")
  else if pyStarts sysname "freebsd" || pyStarts sysname "openbsd" || pyStarts sysname "netbsd" then
    ("bsd", "")
  else if pyIn "nix" sysname then
    ("nix", "")
  else if sysname = "windows" then
    ("windows", pyLower env.release)
  else
    (sysname, "")

/-! ### `map_os_to_docker_image` (the Platform Resolver) -/

/-- The `linux_map` table, in Python dict insertion order. -/
def linux_map : List (String × List (String × String)) :=
  [("centos", [("6", "centos:6"), ("7", "centos:7"), ("8", "centos:8"), ("9", "centos:stream9"), ("", "ubuntu:latest")]),
   ("ubuntu", [("14", "ubuntu:14.04"), ("16", "ubuntu:16.04"), ("18", "ubuntu:18.04"), ("20", "ubuntu:20.04"), ("22", "ubuntu:22.04")]),
   ("debian", [("7", "debian:7"), ("8", "debian:8"), ("9", "debian:9"), ("10", "debian:10"), ("11", "debian:11"), ("12", "debian:12")]),
   ("fedora", [("25", "fedora:25"), ("26", "fedora:26"), ("27", "fedora:27"), ("28", "fedora:28"), ("29", "fedora:29"), ("30", "fedora:30"), ("31", "fedora:31"), ("35", "fedora:35")]),
   ("opensuse leap", [("15", "opensuse/leap:15")]),
   ("opensuse tumbleweed", [("", "opensuse/tumbleweed")]),
   ("linux", [("", "ubuntu:latest")])]

/-- The `windows_map` table, in Python dict insertion order. -/
def windows_map : List (String × String) :=
  [("xp", "legacy-windows/xp:latest"),
   ("vista", "legacy-windows/vista:latest"),
   ("7", "legacy-windows/win7:latest"),
   ("2008", "legacy-windows/win2008:latest"),
   ("2012", "legacy-windows/win2012:latest"),
   ("10", "mcr.microsoft.com/windows/nanoserver:1809"),
   ("2016", "mcr.microsoft.com/windows/servercore:2016"),
   ("2019", "mcr.microsoft.com/windows/servercore:ltsc2019"),
   ("2022", "mcr.microsoft.com/windows/servercore:ltsc2022")]

/-- `for distro, ver_map in linux_map.items(): if distro in os_name: ...` —
the first table row whose family name is a substring of `os_name`. -/
def findDistro (os_name : String) : List (String × List (String × String)) → Option (List (String × String))
  | [] => none
  | (d, m) :: rest => if pyIn d os_name then some m else findDistro os_name rest

/-- `for k, img in windows_map.items(): if k in version: ...` — the first
entry whose key is a substring of `version`. -/
def findWin (version : String) : List (String × String) → Option String
  | [] => none
  | (k, img) :: rest => if pyIn k version then some img else findWin version rest

/-- `map_os_to_docker_image(os_name, version)`. -/
def map_os_to_docker_image (os_name version : String) : String :=
  if os_name = "bsd" then "alpine:latest"
  else if os_name = "nix" then "alpine:latest"
  else if os_name = "windows" then
    (findWin version windows_map).getD "mcr.microsoft.com/windows/servercore:ltsc2019"
  else
    match findDistro os_name linux_map with
    | some ver_map =>
        let short_ver := majorVersion version
        match List.lookup short_ver ver_map with
        | some img => img
        | none =>
            match List.lookup "" ver_map with
            | some img => img
            | none => "ubuntu:latest"
    | none => "ubuntu:latest"

/-- Every image reference the resolver can possibly produce. -/
def allImages : List String :=
  ((linux_map.map Prod.snd).flatten.map Prod.snd) ++ (windows_map.map Prod.snd) ++
    ["alpine:latest", "mcr.microsoft.com/windows/servercore:ltsc2019", "ubuntu:latest"]

/-! ### `restore_container_from_snapshot` (the Recovery Orchestrator) -/

/-- Externally visible steps taken by restore/recovery code: the forced
removal, the `docker load`, the `docker run` with its full argument list, and
an `[ERROR]` line printed when a step raised `CalledProcessError`. -/
inductive Step where
  | rm (name : String)
  | load (tar : String)
  | run (cmd : List String)
  | printError
deriving DecidableEq, Repr

/-- A Python call's result as seen by the caller: a normal return or an
uncaught exception propagating out. -/
inductive PyResult (α : Type) where
  | ok (a : α)
  | exn
deriving DecidableEq, Repr

/-- Outcomes of the external calls `restore_container_from_snapshot` makes:
the host identity `detect_os()` reports, and whether `docker load` and
`docker run` exit successfully. -/
structure RestoreEnv where
  detected : String × String
  loadOk : Bool
  runOk : Bool
deriving DecidableEq, Repr

/-- `restore_container_from_snapshot(snapshot_tar, container_name)`: load the
tar, derive the image name from the tar's own file name, and launch a
read-only unprivileged container.  `CalledProcessError` from either step is
caught and printed, so the function always returns `None` (`ok ()`). -/
def restore_container_from_snapshot (env : RestoreEnv) (snapshot_tar container_name : String) :
    List Step × PyResult Unit :=
  if env.loadOk then
    let image_name := splitextBase (basename snapshot_tar)
    let user := if env.detected.1 = "windows" then "nonroot" else "nobody"
    let cmd := ["docker", "run", "-d", "--read-only", "--user", user, "--name", container_name, image_name]
    if env.runOk then ([Step.load snapshot_tar, Step.run cmd], .ok ())
    else ([Step.load snapshot_tar, Step.run cmd, Step.printError], .ok ())
  else ([Step.load snapshot_tar, Step.printError], .ok ())

/-! ### `continuous_integrity_check` (the Supervisor Loop) -/

/-- Outcomes of the external calls made during one iteration of the
`while True` loop: the export backing the tick's hash, whether
`docker rm -f` exits successfully, the restore step outcomes, and the export
backing the post-restore re-baselining hash. -/
structure TickEnv where
  currentExport : ExportResult
  rmOk : Bool
  restoreEnv : RestoreEnv
  postExport : ExportResult
deriving DecidableEq, Repr

/-- What one loop iteration does to the loop's state: continue ticking with a
(possibly replaced) baseline, or die on an uncaught `CalledProcessError`
(the loop's `try` only catches `KeyboardInterrupt`). -/
inductive TickOutcome where
  | next (baseline : Option String)
  | raised
deriving DecidableEq, Repr

/-- One iteration of the `while True` body of `continuous_integrity_check`.
On a hash mismatch it runs `docker rm -f` (raising if that fails), calls
`restore_container_from_snapshot` (whose result is discarded, as in the
source), and then unconditionally re-baselines from a fresh hash. -/
def integrityTick (snapshot_tar container_name : String) (baseline : Option String) (e : TickEnv) :
    TickOutcome :=
  let current := compute_container_hash e.currentExport
  if current ≠ baseline then
    if e.rmOk then
      let _ := restore_container_from_snapshot e.restoreEnv snapshot_tar container_name
      TickOutcome.next (compute_container_hash e.postExport)
    else TickOutcome.raised
  else TickOutcome.next baseline

/-- Result of running a supervision loop for a bounded number of ticks:
returned before ticking because the baseline was falsy, still ticking when
the tick budget ran out, or died on an uncaught exception. -/
inductive CheckResult where
  | noBaseline
  | running (baseline : Option String)
  | raised
deriving DecidableEq, Repr

/-- The environment of one `continuous_integrity_check` call: the export
backing the baseline hash, and the external outcomes of each successive tick. -/
structure CheckEnv where
  firstExport : ExportResult
  ticks : Nat → TickEnv

/-- The `while True` loop of `continuous_integrity_check`, run for `fuel`
ticks.  It can only stop early by raising; it never returns normally. -/
def checkLoop (snapshot_tar container_name : String) (baseline : Option String)
    (ticks : Nat → TickEnv) : Nat → CheckResult
  | 0 => CheckResult.running baseline
  | n + 1 =>
      match integrityTick snapshot_tar container_name baseline (ticks 0) with
      | .raised => CheckResult.raised
      | .next b => checkLoop snapshot_tar container_name b (fun i => ticks (i + 1)) n

/-- `continuous_integrity_check(container_name, snapshot_tar, interval)`:
establish a baseline (returning at once if it is falsy), then tick forever. -/
def continuous_integrity_check (container_name snapshot_tar : String) (env : CheckEnv)
    (fuel : Nat) : CheckResult :=
  match compute_container_hash env.firstExport with
  | none => CheckResult.noBaseline
  | some h =>
      if h = "" then CheckResult.noBaseline
      else checkLoop snapshot_tar container_name (some h) env.ticks fuel

/-- One iteration of `minimal_integrity_check`'s loop: on a mismatch it only
warns and adopts the drifted hash; nothing can raise. -/
def minimalTick (baseline : Option String) (e : TickEnv) : Option String :=
  let current := compute_container_hash e.currentExport
  if current ≠ baseline then current else baseline

/-- The `while True` loop of `minimal_integrity_check`, run for `fuel` ticks. -/
def minimalLoop (baseline : Option String) (ticks : Nat → TickEnv) : Nat → CheckResult
  | 0 => CheckResult.running baseline
  | n + 1 => minimalLoop (minimalTick baseline (ticks 0)) (fun i => ticks (i + 1)) n

/-- `minimal_integrity_check(container_name, interval)`: hash-only loop with
no restore. -/
def minimal_integrity_check (env : CheckEnv) (fuel : Nat) : CheckResult :=
  match compute_container_hash env.firstExport with
  | none => CheckResult.noBaseline
  | some h =>
      if h = "" then CheckResult.noBaseline
      else minimalLoop (some h) env.ticks fuel

/-! ### `run_integrity_check_for_all` (the Multi-Target Coordinator)

Discovery and the interactive prompts are inputs here: `selected` is the
chosen container list and `cfg` gives, per container, the loop environment
and the snapshot path entered for it (`""` means the user left it blank). -/

/-- The `for container_name in selected:` loop.  Returns the containers whose
check was actually started, and whether `run_integrity_check_for_all`
finished (`false` means it is still blocked inside a running loop).  A
`CalledProcessError` escaping a loop is caught by the `except` wrapping the
whole function body, which prints and returns. -/
def run_integrity_check_for_all (selected : List String) (cfg : String → CheckEnv × String)
    (fuel : Nat) : List String × Bool :=
  match selected with
  | [] => ([], true)
  | c :: rest =>
      let env := (cfg c).1
      let tar := (cfg c).2
      let result :=
        if tar = "" then minimal_integrity_check env fuel
        else continuous_integrity_check c tar env fuel
      match result with
      | .noBaseline =>
          let later := run_integrity_check_for_all rest cfg fuel
          (c :: later.1, later.2)
      | .running _ => ([c], false)
      | .raised => ([c], true)

/-! ### Recovery over a modelled runtime state (for the removal step)

The recovery sequence in the loop body is `docker rm -f` followed by
`restore_container_from_snapshot`.  Whether forced removal of an absent
container succeeds is decided by the container runtime, which is not part of
this repository's sources. -/

/-- The runtime's visible state: the names of existing containers. -/
structure DockerState where
  containers : List String
deriving DecidableEq, Repr

/-- Modelled from the spec: `remove(unit_name)`, the runtime's forced removal
(`docker rm -f`) — "Forcefully remove any existing unit with `unit_name`
(idempotent: absence is not an error)".  The runtime CLI itself is external
to the repository; per the spec, removal succeeds whether or not the
container exists. -/
def dockerRmForce (st : DockerState) (name : String) : DockerState × Bool :=
  (⟨st.containers.erase name⟩, true)

/-- The recovery sequence of the loop body (source lines 353–354) against the
modelled runtime: forced removal, then — unless removal raised — the restore. -/
def recoveryTrace (st : DockerState) (env : RestoreEnv) (snapshot_tar container_name : String) :
    List Step :=
  let rm := dockerRmForce st container_name
  if rm.2 then Step.rm container_name :: (restore_container_from_snapshot env snapshot_tar container_name).1
  else [Step.rm container_name]

/-! ### `ensure_docker_installed` and `fix_docker_group` (Privilege Bootstrap) -/

/-- Process-level outcome of the bootstrap: a normal return, `sys.exit(code)`,
or replacement of the process image by `os.execvp` under `sg docker`. -/
inductive BootOutcome where
  | returned
  | exited (code : Nat)
  | reexec
deriving DecidableEq, Repr

/-- Externally visible bootstrap actions, for tracing which paths ran. -/
inductive BootAction where
  | probe
  | install
  | groupFix
deriving DecidableEq, Repr

/-- Host facts consumed by `ensure_docker_installed`: whether the
`CCDC_DOCKER_GROUP_FIX` sentinel is in the environment, whether
`shutil.which("docker")` finds a binary, the probe results of the
`can_run_docker()` calls (before and after an install attempt),
`platform.system().lower()`, and whether the install attempt reports success. -/
structure BootEnv where
  sentinelSet : Bool
  dockerOnPath : Bool
  canRun1 : Bool
  canRun2 : Bool
  sysname : String
  installOk : Bool
deriving DecidableEq, Repr

/-- `fix_docker_group()`: adds the user to the docker group, sets the
sentinel, and re-execs the whole script under `sg docker` — the process
image is replaced, so the call never returns. -/
def fix_docker_group : BootOutcome := BootOutcome.reexec

/-- `ensure_docker_installed()`: if the sentinel is already set, a successful
probe returns and a failed probe exits with a diagnostic; otherwise probe,
auto-install per platform, and fall into `fix_docker_group` when the freshly
installed runtime is still not accessible. -/
def ensure_docker_installed (env : BootEnv) : BootOutcome × List BootAction :=
  if env.sentinelSet then
    if env.canRun1 then (BootOutcome.returned, [BootAction.probe])
    else (BootOutcome.exited 1, [BootAction.probe])
  else if env.dockerOnPath && env.canRun1 then (BootOutcome.returned, [BootAction.probe])
  else if pyStarts env.sysname "linux" then
    if !env.installOk then (BootOutcome.exited 1, [BootAction.probe, BootAction.install])
    else if !env.canRun2 then (fix_docker_group, [BootAction.probe, BootAction.install, BootAction.probe, BootAction.groupFix])
    else (BootOutcome.returned, [BootAction.probe, BootAction.install, BootAction.probe])
  else if pyIn "bsd" env.sysname then
    if !env.installOk then (BootOutcome.exited 1, [BootAction.probe, BootAction.install])
    else if !env.canRun2 then (fix_docker_group, [BootAction.probe, BootAction.install, BootAction.probe, BootAction.groupFix])
    else (BootOutcome.returned, [BootAction.probe, BootAction.install, BootAction.probe])
  else if pyIn "nix" env.sysname then
    if !env.installOk then (BootOutcome.exited 1, [BootAction.probe, BootAction.install])
    else if !env.canRun2 then (fix_docker_group, [BootAction.probe, BootAction.install, BootAction.probe, BootAction.groupFix])
    else (BootOutcome.returned, [BootAction.probe, BootAction.install, BootAction.probe])
  else if env.sysname = "windows" then (BootOutcome.exited 1, [BootAction.probe])
  else (BootOutcome.exited 1, [BootAction.probe])

/-! ## Helper lemmas -/

theorem shaUpdate_append (st : HashState) (a b : List Byte) :
    shaUpdate st (a ++ b) = shaUpdate (shaUpdate st a) b := by
  simp [shaUpdate, List.foldl_append]

theorem readChunks_foldl (l : List Byte) :
    ∀ st : HashState, (readChunks l).foldl shaUpdate st = shaUpdate st l := by
  induction l using readChunks.induct with
  | case1 => intro st; simp [readChunks, shaUpdate]
  | case2 b rest ih =>
      intro st
      rw [readChunks, List.foldl_cons, ih, ← shaUpdate_append, List.take_append_drop]

theorem compute_stream_eq (bytes : List Byte) (exitCode : Nat) :
    compute_container_hash (ExportResult.stream bytes exitCode) = some (sha256Hex bytes) := by
  simp [compute_container_hash, readChunks_foldl, sha256Hex]

theorem hexdigest_length (st : HashState) : (hexdigest st).length = 64 := by
  simp [hexdigest, String.length, Words8.toList, wordToHex]

theorem lookup_mem_values (l : List (String × String)) (k v : String)
    (h : List.lookup k l = some v) : v ∈ l.map Prod.snd := by
  induction l with
  | nil => simp [List.lookup] at h
  | cons p rest ih =>
      obtain ⟨k', v'⟩ := p
      rw [List.lookup] at h
      cases hk : (k == k') with
      | true => rw [hk] at h; injection h with h; exact h ▸ List.mem_cons_self _ _
      | false => rw [hk] at h; exact List.mem_cons_of_mem _ (ih h)

theorem findDistro_mem (os : String) (l : List (String × List (String × String)))
    (m : List (String × String)) (h : findDistro os l = some m) : m ∈ l.map Prod.snd := by
  induction l with
  | nil => simp [findDistro] at h
  | cons p rest ih =>
      obtain ⟨d, m'⟩ := p
      rw [findDistro] at h
      by_cases hd : pyIn d os = true
      · rw [if_pos hd] at h; injection h with h; exact h ▸ List.mem_cons_self _ _
      · rw [if_neg hd] at h; exact List.mem_cons_of_mem _ (ih h)

theorem findWin_mem (v : String) (l : List (String × String)) (img : String)
    (h : findWin v l = some img) : img ∈ l.map Prod.snd := by
  induction l with
  | nil => simp [findWin] at h
  | cons p rest ih =>
      obtain ⟨k, i⟩ := p
      rw [findWin] at h
      by_cases hk : pyIn k v = true
      · rw [if_pos hk] at h; injection h with h; exact h ▸ List.mem_cons_self _ _
      · rw [if_neg hk] at h; exact List.mem_cons_of_mem _ (ih h)

theorem map_linux_exact (os v : String) (m : List (String × String)) (i : String)
    (h1 : os ≠ "bsd") (h2 : os ≠ "nix") (h3 : os ≠ "windows")
    (hd : findDistro os linux_map = some m)
    (hi : List.lookup (majorVersion v) m = some i) :
    map_os_to_docker_image os v = i := by
  unfold map_os_to_docker_image
  rw [if_neg h1, if_neg h2, if_neg h3, hd]
  dsimp only
  rw [hi]

theorem map_linux_family_default (os v : String) (m : List (String × String)) (d : String)
    (h1 : os ≠ "bsd") (h2 : os ≠ "nix") (h3 : os ≠ "windows")
    (hd : findDistro os linux_map = some m)
    (hi : List.lookup (majorVersion v) m = none)
    (he : List.lookup "" m = some d) :
    map_os_to_docker_image os v = d := by
  unfold map_os_to_docker_image
  rw [if_neg h1, if_neg h2, if_neg h3, hd]
  dsimp only
  rw [hi, he]

theorem map_linux_global_default (os v : String) (m : List (String × String))
    (h1 : os ≠ "bsd") (h2 : os ≠ "nix") (h3 : os ≠ "windows")
    (hd : findDistro os linux_map = some m)
    (hi : List.lookup (majorVersion v) m = none)
    (he : List.lookup "" m = none) :
    map_os_to_docker_image os v = "ubuntu:latest" := by
  unfold map_os_to_docker_image
  rw [if_neg h1, if_neg h2, if_neg h3, hd]
  dsimp only
  rw [hi, he]

theorem map_linux_nomatch (os v : String)
    (h1 : os ≠ "bsd") (h2 : os ≠ "nix") (h3 : os ≠ "windows")
    (hd : findDistro os linux_map = none) :
    map_os_to_docker_image os v = "ubuntu:latest" := by
  unfold map_os_to_docker_image
  rw [if_neg h1, if_neg h2, if_neg h3, hd]

theorem map_total (os v : String) : map_os_to_docker_image os v ∈ allImages := by
  by_cases h1 : os = "bsd"
  · subst h1
    rw [show map_os_to_docker_image "bsd" v = "alpine:latest" from rfl]
    decide
  · by_cases h2 : os = "nix"
    · subst h2
      rw [show map_os_to_docker_image "nix" v = "alpine:latest" from rfl]
      decide
    · by_cases h3 : os = "windows"
      · subst h3
        unfold map_os_to_docker_image
        rw [if_neg (by decide), if_neg (by decide), if_pos rfl]
        cases hw : findWin v windows_map with
        | none => simp only [Option.getD_none]; decide
        | some img =>
            simp only [Option.getD_some]
            have hm := findWin_mem v windows_map img hw
            have : ∀ y ∈ windows_map.map Prod.snd, y ∈ allImages := by decide
            exact this img hm
      · cases hd : findDistro os linux_map with
        | none => rw [map_linux_nomatch os v h1 h2 h3 hd]; decide
        | some m =>
            have hmem := findDistro_mem os linux_map m hd
            cases hv : List.lookup (majorVersion v) m with
            | some img =>
                rw [map_linux_exact os v m img h1 h2 h3 hd hv]
                have hin := lookup_mem_values m _ img hv
                have : ∀ x ∈ linux_map.map Prod.snd, ∀ y ∈ x.map Prod.snd, y ∈ allImages := by
                  decide
                exact this m hmem img hin
            | none =>
                cases he : List.lookup "" m with
                | some d =>
                    rw [map_linux_family_default os v m d h1 h2 h3 hd hv he]
                    have hin := lookup_mem_values m _ d he
                    have : ∀ x ∈ linux_map.map Prod.snd, ∀ y ∈ x.map Prod.snd, y ∈ allImages := by
                      decide
                    exact this m hmem d hin
                | none => rw [map_linux_global_default os v m h1 h2 h3 hd hv he]; decide

end Dockerize

/-! ## Claim theorems -/

namespace Dockerize

/-- C8: for every exported byte stream, the fingerprint computed chunkwise by
`compute_container_hash` equals the SHA-256 hex digest of exactly those bytes
(64 hex characters, i.e. a 256-bit digest), and the empty stream yields the
digest of the empty byte string rather than an error. -/
theorem C8_fingerprint_is_streamed_sha256 (bytes : List Byte) (exitCode : Nat) :
    compute_container_hash (ExportResult.stream bytes exitCode) = some (sha256Hex bytes) ∧
    (sha256Hex bytes).length = 64 ∧
    compute_container_hash (ExportResult.stream [] exitCode) = some (sha256Hex []) :=
  ⟨compute_stream_eq bytes exitCode, hexdigest_length _, compute_stream_eq [] exitCode⟩

set_option maxRecDepth 100000 in
/-- C2: evaluation at the failing input.  When the export process terminates
with a nonzero status after producing an empty stream (e.g. the container no
longer exists), `compute_container_hash` does not signal an error: it ignores
the exit status `proc.wait()` returns and yields the SHA-256 of the empty
stream, and a supervision tick whose baseline equals that digest reports "no
changes" instead of surfacing the failed read. -/
theorem C2_failed_export_is_hashed_silently :
    compute_container_hash (ExportResult.stream [] 1) =
      some "e3b0c44298fc1c149afbf4c8996fb92427ae41e4649b934ca495991b7852b855" ∧
    compute_container_hash (ExportResult.stream [] 1) ≠ none ∧
    integrityTick "snap.tar" "web1"
      (some "e3b0c44298fc1c149afbf4c8996fb92427ae41e4649b934ca495991b7852b855")
      { currentExport := ExportResult.stream [] 1, rmOk := true,
        restoreEnv := ⟨("linux", ""), true, true⟩, postExport := ExportResult.stream [] 0 } =
      TickOutcome.next
        (some "e3b0c44298fc1c149afbf4c8996fb92427ae41e4649b934ca495991b7852b855") := by
  have h0 : sha256Hex [] = "e3b0c44298fc1c149afbf4c8996fb92427ae41e4649b934ca495991b7852b855" := by
    decide
  refine ⟨?_, ?_, ?_⟩
  · rw [compute_stream_eq, h0]
  · rw [compute_stream_eq]; simp
  · simp [integrityTick, compute_stream_eq, h0]

/-- C10: `restore_container_from_snapshot` returns `None` to its caller no
matter whether the load and launch steps succeed or raise
`CalledProcessError` (which it catches and only prints), so the Supervisor
Loop cannot distinguish a failed recovery from a successful one by the
call's result. -/
theorem C10_restore_never_signals_failure (env : RestoreEnv) (tar name : String) :
    (restore_container_from_snapshot env tar name).2 = PyResult.ok () := by
  rcases env with ⟨det, lo, ro⟩
  cases lo <;> cases ro <;> rfl

/-- C6: when the load step succeeds, `restore_container_from_snapshot` first
loads the snapshot artifact and then launches a unit with the requested name
from the image whose reference is derived from the artifact's file name
(basename with the extension stripped), read-only, as user `nobody` off
Windows and `nonroot` on Windows. -/
theorem C6_restore_derives_image_and_hardens (env : RestoreEnv) (tar name : String)
    (h : env.loadOk = true) :
    ((restore_container_from_snapshot env tar name).1).take 2 =
      [Step.load tar,
       Step.run ["docker", "run", "-d", "--read-only", "--user",
                 (if env.detected.1 = "windows" then "nonroot" else "nobody"),
                 "--name", name, splitextBase (basename tar)]] := by
  rcases env with ⟨det, lo, ro⟩
  subst h
  cases ro <;> rfl

/-- C6 witness: a concrete restore on the Windows platform identity. -/
theorem C6_restore_derives_image_and_hardens_witness :
    ((restore_container_from_snapshot ⟨("windows", "10"), true, true⟩ "/snaps/web1.tar" "web1").1).take 2 =
      [Step.load "/snaps/web1.tar",
       Step.run ["docker", "run", "-d", "--read-only", "--user", "nonroot", "--name", "web1", "web1"]] :=
  C6_restore_derives_image_and_hardens ⟨("windows", "10"), true, true⟩ "/snaps/web1.tar" "web1" rfl

set_option maxRecDepth 1000000 in
/-- C1 counterexample: a concrete tick in which drift is detected and the
restore fails (`docker load` raises; the restore trace contains the error
print), yet the loop's baseline after the tick is the freshly computed digest
of whatever unit now exists — not the old baseline. -/
theorem C1_counterexample :
    integrityTick "snap.tar" "web1" (some (sha256Hex [0]))
        { currentExport := ExportResult.stream [1] 0, rmOk := true,
          restoreEnv := ⟨("linux", ""), false, true⟩, postExport := ExportResult.stream [] 0 } =
      TickOutcome.next (some (sha256Hex [])) ∧
    Step.printError ∈ (restore_container_from_snapshot ⟨("linux", ""), false, true⟩ "snap.tar" "web1").1 ∧
    some (sha256Hex []) ≠ some (sha256Hex [0]) := by
  refine ⟨?_, by decide, by decide⟩
  have h1 : compute_container_hash (ExportResult.stream [1] 0) = some (sha256Hex [1]) :=
    compute_stream_eq [1] 0
  have h0 : compute_container_hash (ExportResult.stream [] 0) = some (sha256Hex []) :=
    compute_stream_eq [] 0
  have hne : some (sha256Hex [1]) ≠ some (sha256Hex [0]) := by decide
  simp [integrityTick, h1, h0, hne]

/-- C1 amended: after a detected drift the loop does not keep its old
baseline.  If the forced removal succeeds, the tick unconditionally adopts
the freshly recomputed digest of whatever unit then exists — even when the
restore itself failed, since `restore_container_from_snapshot` swallows its
errors; and if the removal fails, the `CalledProcessError` escapes the loop
(only `KeyboardInterrupt` is caught) and the check stops ticking. -/
theorem C1_amended_rebaseline_is_unconditional (tar name : String) (b : Option String)
    (e : TickEnv) (hdrift : compute_container_hash e.currentExport ≠ b) :
    (e.rmOk = true → integrityTick tar name b e = TickOutcome.next (compute_container_hash e.postExport)) ∧
    (e.rmOk = false → integrityTick tar name b e = TickOutcome.raised) := by
  constructor <;> intro h <;> simp [integrityTick, hdrift, h]

set_option maxRecDepth 1000000 in
/-- C1 amended witness: the amended behaviour at the counterexample's input. -/
theorem C1_amended_rebaseline_is_unconditional_witness :
    integrityTick "snap.tar" "web1" (some (sha256Hex [0]))
        { currentExport := ExportResult.stream [1] 0, rmOk := true,
          restoreEnv := ⟨("linux", ""), false, true⟩, postExport := ExportResult.stream [] 0 } =
      TickOutcome.next (compute_container_hash (ExportResult.stream [] 0)) :=
  (C1_amended_rebaseline_is_unconditional "snap.tar" "web1" (some (sha256Hex [0])) _
    (by rw [compute_stream_eq]; decide)).1 rfl

/-- C4: when the `CCDC_DOCKER_GROUP_FIX` sentinel is already set and the
runtime-access probe still fails, `ensure_docker_installed` exits with a
diagnostic after the single probe and never reaches the group-fix/re-exec
path, so the re-exec happens at most once per logical invocation. -/
theorem C4_sentinel_makes_failure_terminal (env : BootEnv)
    (h1 : env.sentinelSet = true) (h2 : env.canRun1 = false) :
    ensure_docker_installed env = (BootOutcome.exited 1, [BootAction.probe]) ∧
    BootAction.groupFix ∉ (ensure_docker_installed env).2 := by
  rcases env with ⟨s, dp, c1, c2, sys, inst⟩
  subst h1
  subst h2
  have he : ensure_docker_installed ⟨true, dp, false, c2, sys, inst⟩ =
      (BootOutcome.exited 1, [BootAction.probe]) := rfl
  refine ⟨he, ?_⟩
  rw [he]
  decide

/-- C4 witness: a concrete post-re-exec environment whose probe still fails. -/
theorem C4_sentinel_makes_failure_terminal_witness :
    ensure_docker_installed ⟨true, true, false, true, "linux", true⟩ =
      (BootOutcome.exited 1, [BootAction.probe]) ∧
    BootAction.groupFix ∉ (ensure_docker_installed ⟨true, true, false, true, "linux", true⟩).2 :=
  C4_sentinel_makes_failure_terminal ⟨true, true, false, true, "linux", true⟩ rfl rfl

/-- C5: when no container with the target name exists, the forced-removal
step of recovery succeeds (absence is not an error under the modelled
runtime semantics) and recovery proceeds to loading the snapshot artifact. -/
theorem C5_removal_idempotent_wrt_absence (st : DockerState) (env : RestoreEnv)
    (tar name : String) (habsent : name ∉ st.containers) :
    (dockerRmForce st name).2 = true ∧
    (recoveryTrace st env tar name).take 2 = [Step.rm name, Step.load tar] := by
  refine ⟨rfl, ?_⟩
  rcases env with ⟨det, lo, ro⟩
  cases lo <;> cases ro <;> rfl

/-- C5 witness: recovery of `web1` in a runtime state that has no `web1`. -/
theorem C5_removal_idempotent_wrt_absence_witness :
    (dockerRmForce ⟨["db1"]⟩ "web1").2 = true ∧
    (recoveryTrace ⟨["db1"]⟩ ⟨("linux", ""), true, true⟩ "snap.tar" "web1").take 2 =
      [Step.rm "web1", Step.load "snap.tar"] :=
  C5_removal_idempotent_wrt_absence ⟨["db1"]⟩ ⟨("linux", ""), true, true⟩ "snap.tar" "web1"
    (by decide)

/-- C3: the Platform Resolver is total — every `(family, version)` input
resolves to one of the finitely many table images or defaults — and settles
the three specified inputs; moreover on the Linux path the precedence is
exactly: entry at the major version, else the family's `""` entry, else the
global default `ubuntu:latest`, and an unmatched family resolves to the
global default. -/
theorem C3_resolver_total_and_tiebreak :
    (∀ os v, map_os_to_docker_image os v ∈ allImages) ∧
    map_os_to_docker_image "ubuntu" "20.04" = "ubuntu:20.04" ∧
    map_os_to_docker_image "ubuntu" "99" = "ubuntu:latest" ∧
    map_os_to_docker_image "unknownfamily" "1" = "ubuntu:latest" ∧
    (∀ os v m, os ≠ "bsd" → os ≠ "nix" → os ≠ "windows" →
      findDistro os linux_map = some m →
      (∀ i, List.lookup (majorVersion v) m = some i → map_os_to_docker_image os v = i) ∧
      (List.lookup (majorVersion v) m = none →
        (∀ d, List.lookup "" m = some d → map_os_to_docker_image os v = d) ∧
        (List.lookup "" m = none → map_os_to_docker_image os v = "ubuntu:latest"))) ∧
    (∀ os v, os ≠ "bsd" → os ≠ "nix" → os ≠ "windows" →
      findDistro os linux_map = none → map_os_to_docker_image os v = "ubuntu:latest") := by
  refine ⟨map_total, by decide, by decide, by decide, ?_, map_linux_nomatch⟩
  intro os v m h1 h2 h3 hd
  exact ⟨fun i hi => map_linux_exact os v m i h1 h2 h3 hd hi,
         fun hv => ⟨fun d he => map_linux_family_default os v m d h1 h2 h3 hd hv he,
                    fun he => map_linux_global_default os v m h1 h2 h3 hd hv he⟩⟩

/-- C3 witness: the tie-break clauses applied at concrete inputs. -/
theorem C3_resolver_total_and_tiebreak_witness :
    map_os_to_docker_image "centos" "7.9.2009" = "centos:7" ∧
    map_os_to_docker_image "centos" "99" = "ubuntu:latest" ∧
    map_os_to_docker_image "arch" "1" = "ubuntu:latest" := by
  refine ⟨?_, ?_, ?_⟩
  · exact (C3_resolver_total_and_tiebreak.2.2.2.2.1 "centos" "7.9.2009"
      [("6", "centos:6"), ("7", "centos:7"), ("8", "centos:8"), ("9", "centos:stream9"), ("", "ubuntu:latest")]
      (by decide) (by decide) (by decide) (by decide)).1 "centos:7" (by decide)
  · exact ((C3_resolver_total_and_tiebreak.2.2.2.2.1 "centos" "99"
      [("6", "centos:6"), ("7", "centos:7"), ("8", "centos:8"), ("9", "centos:stream9"), ("", "ubuntu:latest")]
      (by decide) (by decide) (by decide) (by decide)).2 (by decide)).1 "ubuntu:latest" (by decide)
  · exact C3_resolver_total_and_tiebreak.2.2.2.2.2 "arch" "1" (by decide) (by decide) (by decide)
      (by decide)

/-- C9 counterexample: `map_os_to_docker_image` itself is not
case-insensitive — on `("Ubuntu", "20.04")` it misses every family row
(substring matching is case-sensitive) and returns the global default,
while `("ubuntu", "20.04")` returns the exact-version entry. -/
theorem C9_counterexample :
    map_os_to_docker_image "Ubuntu" "20.04" = "ubuntu:latest" ∧
    map_os_to_docker_image "ubuntu" "20.04" = "ubuntu:20.04" ∧
    map_os_to_docker_image "Ubuntu" "20.04" ≠ map_os_to_docker_image "ubuntu" "20.04" := by
  refine ⟨by decide, by decide, by decide⟩

/-- C9 amended: case-insensitivity lives upstream in `detect_os`, which
lowercases the family and version read from the host before they reach the
resolver (so the composed pipeline is insensitive to the host file's
casing), while `map_os_to_docker_image` itself is case-sensitive; the
tolerance of partial versions does hold: any version string whose major
component (the text before the first dot) matches a table key resolves to
that entry. -/
theorem C9_amended_normalization_in_detect_os :
    detect_os ⟨"Linux", some ["NAME=\"Ubuntu\"", "VERSION_ID=\"20.04\""], ""⟩ = ("ubuntu", "20.04") ∧
    map_os_to_docker_image "ubuntu" "20.04" = "ubuntu:20.04" ∧
    (∀ v m i, findDistro "ubuntu" linux_map = some m →
      List.lookup (majorVersion v) m = some i → map_os_to_docker_image "ubuntu" v = i) ∧
    (∀ v, majorVersion v = "20" → map_os_to_docker_image "ubuntu" v = "ubuntu:20.04") := by
  have hexact : ∀ v m i, findDistro "ubuntu" linux_map = some m →
      List.lookup (majorVersion v) m = some i → map_os_to_docker_image "ubuntu" v = i :=
    fun v m i hd hi => map_linux_exact "ubuntu" v m i (by decide) (by decide) (by decide) hd hi
  refine ⟨by decide, by decide, hexact, ?_⟩
  intro v hv
  refine hexact v
    [("14", "ubuntu:14.04"), ("16", "ubuntu:16.04"), ("18", "ubuntu:18.04"), ("20", "ubuntu:20.04"), ("22", "ubuntu:22.04")]
    "ubuntu:20.04" (by decide) ?_
  rw [hv]
  decide

/-- C9 amended witness: a fuller version string with major component `20`
resolves through the major-version key. -/
theorem C9_amended_normalization_in_detect_os_witness :
    map_os_to_docker_image "ubuntu" "20.04.6" = "ubuntu:20.04" :=
  C9_amended_normalization_in_detect_os.2.2.2 "20.04.6" (by decide)

end Dockerize

namespace Dockerize

theorem checkLoop_running (tar name : String) :
    ∀ (fuel : Nat) (ticks : Nat → TickEnv) (b : Option String),
      (∀ i b', integrityTick tar name b' (ticks i) ≠ TickOutcome.raised) →
      ∃ b', checkLoop tar name b ticks fuel = CheckResult.running b' := by
  intro fuel
  induction fuel with
  | zero => intro ticks b hsafe; exact ⟨b, rfl⟩
  | succ n ih =>
      intro ticks b hsafe
      cases htick : integrityTick tar name b (ticks 0) with
      | raised => exact absurd htick (hsafe 0 b)
      | next b2 =>
          obtain ⟨b', hb⟩ := ih (fun i => ticks (i + 1)) b2 (fun i b' => hsafe (i + 1) b')
          exact ⟨b', by rw [checkLoop, htick]; exact hb⟩

/-- C7: in the multi-container mode, the first selected unit blocks all later
ones — if the first unit's continuous check obtains a baseline and no tick
raises, the coordinator stays inside that unit's infinite loop for any tick
budget, so the check for the second selected unit is never started. -/
theorem C7_first_target_blocks_the_rest (c1 c2 : String) (rest : List String)
    (cfg : String → CheckEnv × String) (fuel : Nat)
    (htar : (cfg c1).2 ≠ "")
    (hbase : ∃ h, compute_container_hash ((cfg c1).1).firstExport = some h ∧ h ≠ "")
    (hsafe : ∀ i b, integrityTick (cfg c1).2 c1 b (((cfg c1).1).ticks i) ≠ TickOutcome.raised) :
    run_integrity_check_for_all (c1 :: c2 :: rest) cfg fuel = ([c1], false) := by
  obtain ⟨h, hh, hne⟩ := hbase
  obtain ⟨b', hb⟩ := checkLoop_running (cfg c1).2 c1 fuel ((cfg c1).1).ticks (some h) hsafe
  rw [run_integrity_check_for_all]
  rw [if_neg htar]
  rw [continuous_integrity_check, hh]
  dsimp only
  rw [if_neg hne, hb]

/-- C7 witness: two selected containers with a drift-free environment; after
three ticks the coordinator is still inside the first loop and only the
first container's check ever started. -/
theorem C7_first_target_blocks_the_rest_witness :
    run_integrity_check_for_all ["web1", "web2"]
      (fun _ => (⟨ExportResult.stream [] 0,
                  fun _ => ⟨ExportResult.stream [] 0, true, ⟨("linux", ""), true, true⟩,
                            ExportResult.stream [] 0⟩⟩, "snap.tar")) 3 =
      (["web1"], false) :=
  C7_first_target_blocks_the_rest "web1" "web2" []
    (fun _ => (⟨ExportResult.stream [] 0,
                fun _ => ⟨ExportResult.stream [] 0, true, ⟨("linux", ""), true, true⟩,
                          ExportResult.stream [] 0⟩⟩, "snap.tar")) 3
    (by decide)
    ⟨sha256Hex [], compute_stream_eq [] 0, by decide⟩
    (by
      intro i b
      simp only [integrityTick]
      split
      · simp
      · simp)

end Dockerize
